import Mathlib

/-!
Verification development for the books.toscrape.com crawl / clean / analyze
pipeline (source files streamlit_app.py and try.py; the two files contain the
same scrape_books, clean_data and analyze_data logic).

The definitions below are a shallow embedding of that code:

- strings are Lean String / List Char; the DataFrame rows are explicit records;
- a Python exception is modelled as Except.error (or Option.none for a single
  fallible conversion); decimal values are modelled exactly as rationals;
- network fetches are an explicit function argument from a detail URL to the
  fetched detail page (or a fetch failure), so the control flow of the scraping
  loop can be stated without performing I/O;
- the fixed sleep calls of the scraping loop are modelled by an event trace.
-/

/-! ## Character and digit helpers -/

/-- Predicate of the regex character class [\d.] used by clean_data
    (re.sub deletes every character outside this class). -/
def isDigitOrDot (c : Char) : Bool := c.isDigit || c == '.'

/-- Numeric value of a list of decimal digit characters. -/
def digitsToNat (l : List Char) : Nat := l.foldl (fun a c => a * 10 + (c.toNat - 48)) 0

/-- All characters of the list are decimal digits. -/
def allDigits (l : List Char) : Bool := l.all Char.isDigit

/-- Python str.strip(): remove leading and trailing whitespace. -/
def pyStrip (s : String) : String :=
  String.mk (((s.data.dropWhile Char.isWhitespace).reverse.dropWhile Char.isWhitespace).reverse)

/-! ## Currency parsing: clean_data price columns

clean_data applies
  lambda x: float(re.sub(r'[^\d.]', '', str(x))) if pd.notnull(x) else 0.0
to each of price, price_excl_tax, price_incl_tax, tax.

After re.sub the string consists of digits and dots only, and Python float()
accepts exactly the strings with at most one dot, no other non-digit, and at
least one digit; everything else raises ValueError.  parseDecimalParts returns
the parsed value as (numerator, number of fraction digits), and none models
ValueError.  -/

/-- Python float() restricted to digit/dot strings: digits, optionally a single
    dot with digit fraction, at least one digit overall.  Returns the numerator
    and the count of fraction digits; none models ValueError. -/
def parseDecimalParts (l : List Char) : Option (Nat × Nat) :=
  match l.dropWhile Char.isDigit with
  | [] =>
    if (l.takeWhile Char.isDigit).isEmpty then none
    else some (digitsToNat (l.takeWhile Char.isDigit), 0)
  | '.' :: frac =>
    if allDigits frac && (!(l.takeWhile Char.isDigit).isEmpty || !frac.isEmpty) then
      some (digitsToNat (l.takeWhile Char.isDigit) * 10 ^ frac.length + digitsToNat frac,
            frac.length)
    else none
  | _ :: _ => none

/-- The currency-cleaning lambda of clean_data.  The input is the cell value:
    none models a pandas null (pd.notnull false, result 0.0); some s is a string
    cell.  The result none models an uncaught ValueError from float(). -/
def clean_currency (x : Option String) : Option Rat :=
  match x with
  | none => some 0
  | some s =>
    (parseDecimalParts (s.data.filter isDigitOrDot)).map fun p => (p.1 : Rat) / 10 ^ p.2

/-! ## Rating mapping: clean_data

clean_data runs df['rating'].map(rating_map).fillna(3) with
rating_map = {'One': 1, 'Two': 2, 'Three': 3, 'Four': 4, 'Five': 5}. -/

/-- The rating_map dictionary; none models a label absent from the dict
    (pandas Series.map yields NaN there). -/
def rating_map (s : String) : Option Nat :=
  if s = "One" then some 1
  else if s = "Two" then some 2
  else if s = "Three" then some 3
  else if s = "Four" then some 4
  else if s = "Five" then some 5
  else none

/-- The composed map-then-fillna step of clean_data on one rating label. -/
def clean_rating (s : String) : Nat := (rating_map s).getD 3

/-! ## Availability parsing: scrape_books

scrape_books runs
  availability_match = re.search(r'\((\d+) available\)', availability_text)
  availability = int(match.group(1)) if match else
                 (1 if 'In stock' in availability_text else 0)

availSearch models re.search of that pattern: it scans left to right for a
literal left parenthesis followed by a nonempty digit run followed by the
literal text " available)".  (The greedy \d+ cannot backtrack usefully here
because the character after the digits must be the literal space, never a
digit, so the maximal digit run is the only candidate.) -/

/-- Model of re.search for the pattern of a parenthesised available count;
    returns the captured number of the leftmost match. -/
def availSearch : List Char → Option Nat
  | [] => none
  | '(' :: rest =>
    if !(rest.takeWhile Char.isDigit).isEmpty &&
        (" available)".data.isPrefixOf (rest.dropWhile Char.isDigit)) then
      some (digitsToNat (rest.takeWhile Char.isDigit))
    else availSearch rest
  | _ :: rest => availSearch rest

/-- Substring containment on character lists (the Python in operator on str). -/
def containsSub (pat : List Char) : List Char → Bool
  | [] => pat.isEmpty
  | c :: rest => pat.isPrefixOf (c :: rest) || containsSub pat rest

/-- The Python expression checking that the availability text has the words
    In stock somewhere in it. -/
def containsInStock (s : String) : Bool := containsSub "In stock".data s.data

/-- The availability computation of scrape_books on one availability text. -/
def parse_availability (s : String) : Nat :=
  match availSearch s.data with
  | some n => n
  | none => if containsInStock s then 1 else 0

/-! ## The scraping loop: scrape_books

A listing item holds the five values scrape_books reads off one product card
of a listing page.  A detail page holds the lookups scrape_books performs on
one book page; a field is none when the corresponding tag or table row is
missing from the page, in which case the Python code raises (subscripting or
find_next_sibling on None) - there is no try/except anywhere in the loop. -/

/-- Values extracted from one product card of a listing page. -/
structure ListingItem where
  title : String
  priceText : String
  ratingLabel : String
  availabilityText : String
  href : String
deriving DecidableEq

/-- Lookup results on one detail page; none models a missing tag or row. -/
structure DetailPage where
  description : Option String
  upc : Option String
  productType : Option String
  priceExclTax : Option String
  priceInclTax : Option String
  tax : Option String
  numReviews : Option String
deriving DecidableEq

/-- The record dict appended by scrape_books for one book: all eleven keys are
    always present, availability is already a number at creation time. -/
structure Book where
  title : String
  price : String
  rating : String
  availability : Nat
  upc : String
  product_type : String
  price_excl_tax : String
  price_incl_tax : String
  tax : String
  num_reviews : String
  description : String
deriving DecidableEq

/-- Errors of the scraping loop: a failed requests.get, or a raised exception
    from a failed tag lookup (TypeError / AttributeError on None). -/
inductive ScrapeErr where
  | fetchErr : ScrapeErr
  | parseErr : ScrapeErr
deriving DecidableEq

/-- Subscripting / find_next_sibling on a lookup result: raises when the
    lookup returned None. -/
def reqField (o : Option String) : Except ScrapeErr String :=
  match o with
  | some s => Except.ok s
  | none => Except.error ScrapeErr.parseErr

/-- The body of the inner loop of scrape_books for one product card: parse the
    availability, fetch the detail page, read the seven detail fields (the
    description is stripped), and build the record dict.  Any failure raises
    out of the loop - nothing is caught. -/
def scrape_item (fetch : String → Except ScrapeErr DetailPage) (it : ListingItem) :
    Except ScrapeErr Book := do
  let availability := parse_availability it.availabilityText
  let page ← fetch it.href
  let description ← reqField page.description
  let upc ← reqField page.upc
  let product_type ← reqField page.productType
  let price_excl_tax ← reqField page.priceExclTax
  let price_incl_tax ← reqField page.priceInclTax
  let tax ← reqField page.tax
  let num_reviews ← reqField page.numReviews
  Except.ok
    { title := it.title, price := it.priceText, rating := it.ratingLabel,
      availability := availability, upc := upc, product_type := product_type,
      price_excl_tax := price_excl_tax, price_incl_tax := price_incl_tax,
      tax := tax, num_reviews := num_reviews, description := pyStrip description }

/-- The inner loop of scrape_books over the product cards of one listing page:
    an exception from any item aborts the whole loop (and hence the run),
    exactly as an uncaught Python exception would. -/
def scrape_page (fetch : String → Except ScrapeErr DetailPage) :
    List ListingItem → Except ScrapeErr (List Book)
  | [] => Except.ok []
  | it :: rest =>
    match scrape_item fetch it with
    | Except.error e => Except.error e
    | Except.ok b =>
      match scrape_page fetch rest with
      | Except.error e => Except.error e
      | Except.ok bs => Except.ok (b :: bs)

/-! ## Request / sleep trace of scrape_books

scrape_books performs, per page: one requests.get for the listing page, then
for every book one requests.get for the detail page followed by
time.sleep(0.5).  There is no retry logic anywhere: each URL is requested
exactly once.  The trace below records those calls in program order. -/

/-- One observable network or timing action of scrape_books. -/
inductive Ev where
  | fetchListing : Nat → Ev
  | fetchDetail : String → Ev
  | sleep : Ev
deriving DecidableEq

/-- Trace of the inner loop: per book, a detail request then a sleep. -/
def itemEvs : List ListingItem → List Ev
  | [] => []
  | it :: rest => Ev.fetchDetail it.href :: Ev.sleep :: itemEvs rest

/-- Trace of one iteration of the page loop: the listing request, then the
    inner loop trace. -/
def pageTrace (p : Nat) (its : List ListingItem) : List Ev :=
  Ev.fetchListing p :: itemEvs its

/-- Trace of a whole run over the given pages (page index with its items). -/
def scrapeTrace : List (Nat × List ListingItem) → List Ev
  | [] => []
  | (p, its) :: rest => pageTrace p its ++ scrapeTrace rest

/-- An event that issues an outbound request. -/
def isFetch : Ev → Bool
  | Ev.sleep => false
  | _ => true

/-- A trace is well spaced when no two requests are adjacent, i.e. at least
    one sleep separates the completion of each request from the start of
    the next. -/
def wellSpaced : List Ev → Bool
  | e1 :: e2 :: rest => !(isFetch e1 && isFetch e2) && wellSpaced (e2 :: rest)
  | _ => true

/-! ## DataFrame cells and the first phase of clean_data

A cell of the scraped DataFrame: a pandas null, a string, or a number.  The
first phase of clean_data is dropna(subset=['price','title','rating']) followed
by assign(description=...fillna('No description'), num_reviews=...fillna(0)).
The num_reviews column is later converted with astype(int), which raises
ValueError on a string that int() cannot parse - there is no fallback. -/

/-- One DataFrame cell. -/
inductive Cell where
  | null : Cell
  | str : String → Cell
  | intval : Int → Cell
deriving DecidableEq

/-- Series.fillna(0) on one cell. -/
def fill_na_zero : Cell → Cell
  | Cell.null => Cell.intval 0
  | c => c

/-- Python int() on a string: surrounding whitespace, an optional sign, then a
    nonempty run of decimal digits; anything else raises ValueError (none). -/
def pyInt (s : String) : Option Int :=
  match (pyStrip s).data with
  | '-' :: ds => if !ds.isEmpty && allDigits ds then some (-(digitsToNat ds : Int)) else none
  | '+' :: ds => if !ds.isEmpty && allDigits ds then some (digitsToNat ds : Int) else none
  | ds => if !ds.isEmpty && allDigits ds then some (digitsToNat ds : Int) else none

/-- Conversion failure raised by astype(int). -/
inductive ValueErr where
  | valueErr : ValueErr
deriving DecidableEq

/-- astype(int) on one cell: numbers pass through, strings go through int(),
    a null (NaN) cannot be converted either. -/
def astype_int : Cell → Except ValueErr Int
  | Cell.null => Except.error ValueErr.valueErr
  | Cell.intval n => Except.ok n
  | Cell.str s =>
    match pyInt s with
    | some n => Except.ok n
    | none => Except.error ValueErr.valueErr

/-- The num_reviews pipeline of clean_data on one cell: fillna(0) at the
    assign step, then astype(int). -/
def clean_num_reviews (c : Cell) : Except ValueErr Int := astype_int (fill_na_zero c)

/-- One row of the scraped DataFrame, one cell per column. -/
structure Row where
  title : Cell
  price : Cell
  rating : Cell
  availability : Cell
  upc : Cell
  product_type : Cell
  price_excl_tax : Cell
  price_incl_tax : Cell
  tax : Cell
  num_reviews : Cell
  description : Cell
deriving DecidableEq

/-- The DataFrame row built from one record dict of scrape_books: every column
    holds a concrete value, availability is a (non-negative) integer cell. -/
def Book.toRow (b : Book) : Row :=
  { title := Cell.str b.title, price := Cell.str b.price, rating := Cell.str b.rating,
    availability := Cell.intval (Int.ofNat b.availability), upc := Cell.str b.upc,
    product_type := Cell.str b.product_type, price_excl_tax := Cell.str b.price_excl_tax,
    price_incl_tax := Cell.str b.price_incl_tax, tax := Cell.str b.tax,
    num_reviews := Cell.str b.num_reviews, description := Cell.str b.description }

/-- Test for a pandas null cell. -/
def isNullCell : Cell → Bool
  | Cell.null => true
  | _ => false

/-- df.dropna(subset=['price', 'title', 'rating']). -/
def dropna_critical (rows : List Row) : List Row :=
  rows.filter fun r => !(isNullCell r.price || isNullCell r.title || isNullCell r.rating)

/-- The assign step: fillna('No description') on description and fillna(0) on
    num_reviews, applied to one row. -/
def fill_defaults (r : Row) : Row :=
  { r with
    description := if isNullCell r.description then Cell.str "No description" else r.description,
    num_reviews := fill_na_zero r.num_reviews }

/-- The required-field drop followed by the default fills of clean_data. -/
def clean_phase1 (rows : List Row) : List Row :=
  (dropna_critical rows).map fill_defaults

/-- All eleven columns of the row are non-null. -/
def rowNonNull (r : Row) : Bool :=
  !isNullCell r.title && !isNullCell r.price && !isNullCell r.rating &&
  !isNullCell r.availability && !isNullCell r.upc && !isNullCell r.product_type &&
  !isNullCell r.price_excl_tax && !isNullCell r.price_incl_tax && !isNullCell r.tax &&
  !isNullCell r.num_reviews && !isNullCell r.description

/-! ## Analysis: analyze_data

analyze_data reads three columns of the cleaned DataFrame: price (float),
availability (int) and rating (int).  A cleaned record is modelled by those
three typed fields.  Pandas mean/max/min of an empty numeric Series is the
floating NaN value; PyFloat makes that value explicit so the empty case can
be stated. -/

/-- A cleaned record as consumed by analyze_data. -/
structure CleanBook where
  price : Rat
  rating : Nat
  availability : Nat
deriving DecidableEq

/-- A Python float that is either NaN or an exact numeric value. -/
inductive PyFloat where
  | nan : PyFloat
  | val : Rat → PyFloat
deriving DecidableEq

/-- Series.mean(): NaN on an empty series, else the arithmetic mean. -/
def seriesMean : List Rat → PyFloat
  | [] => PyFloat.nan
  | l => PyFloat.val (l.sum / l.length)

/-- Series.max(): NaN on an empty series. -/
def seriesMax : List Rat → PyFloat
  | [] => PyFloat.nan
  | x :: xs => PyFloat.val (xs.foldl max x)

/-- Series.min(): NaN on an empty series. -/
def seriesMin : List Rat → PyFloat
  | [] => PyFloat.nan
  | x :: xs => PyFloat.val (xs.foldl min x)

/-- Insert into an ascending list of naturals. -/
def insertSorted (n : Nat) : List Nat → List Nat
  | [] => [n]
  | m :: ms => if n ≤ m then n :: m :: ms else m :: insertSorted n ms

/-- Sort a list of naturals ascending (insertion sort). -/
def sortNat (l : List Nat) : List Nat := l.foldr insertSorted []

/-- Series.value_counts().sort_index(): the distinct values that occur, in
    ascending order, each with its occurrence count.  Values that do not occur
    in the series do not appear at all. -/
def value_counts_sorted (l : List Nat) : List (Nat × Nat) :=
  (sortNat l.dedup).map fun v => (v, l.count v)

/-- Arithmetic mean of a nonempty list of rationals (used on nonempty groups). -/
def meanQ (l : List Rat) : Rat := l.sum / l.length

/-- df.groupby('rating')['price'].mean(): for every rating that occurs, the
    mean price of the records with that rating, keys ascending. -/
def groupMeanByRating (df : List CleanBook) : List (Nat × Rat) :=
  (sortNat (df.map CleanBook.rating).dedup).map fun r =>
    (r, meanQ ((df.filter fun b => b.rating = r).map CleanBook.price))

/-- The analysis_results dict of analyze_data. -/
structure AnalysisResults where
  average_price : PyFloat
  max_price : PyFloat
  min_price : PyFloat
  total_available : Nat
  rating_distribution : List (Nat × Nat)
  price_by_rating : List (Nat × Rat)
deriving DecidableEq

/-- analyze_data over the cleaned collection. -/
def analyze_data (df : List CleanBook) : AnalysisResults :=
  { average_price := seriesMean (df.map CleanBook.price),
    max_price := seriesMax (df.map CleanBook.price),
    min_price := seriesMin (df.map CleanBook.price),
    total_available := (df.map CleanBook.availability).sum,
    rating_distribution := value_counts_sorted (df.map CleanBook.rating),
    price_by_rating := groupMeanByRating df }

/-! ## Concrete fixtures used by the counterexamples and witnesses -/

/-- A detail page with every field present. -/
def demoDetail : DetailPage :=
  { description := some "d", upc := some "u", productType := some "pt",
    priceExclTax := some "£1.00", priceInclTax := some "£1.00",
    tax := some "£0.00", numReviews := some "0" }

/-- A detail page whose meta description tag is missing. -/
def noMetaPage : DetailPage :=
  { description := none, upc := some "u", productType := some "pt",
    priceExclTax := some "£1.00", priceInclTax := some "£1.00",
    tax := some "£0.00", numReviews := some "0" }

/-- A detail page where every lookup fails. -/
def pageAllNone : DetailPage := ⟨none, none, none, none, none, none, none⟩

/-- First fixture listing item. -/
def itemA : ListingItem :=
  { title := "A", priceText := "£1.00", ratingLabel := "One",
    availabilityText := "In stock", href := "a.html" }

/-- Second fixture listing item. -/
def itemB : ListingItem :=
  { title := "B", priceText := "£2.00", ratingLabel := "Two",
    availabilityText := "In stock", href := "b.html" }

/-- Third fixture listing item. -/
def itemC : ListingItem :=
  { title := "C", priceText := "£3.00", ratingLabel := "Three",
    availabilityText := "In stock", href := "c.html" }

/-- A fetcher that fails (network failure) exactly on the detail page of the
    second fixture item and succeeds on every other URL. -/
def demoFetch (href : String) : Except ScrapeErr DetailPage :=
  if href = "b.html" then Except.error ScrapeErr.fetchErr else Except.ok demoDetail

/-- A fetcher that always succeeds. -/
def demoFetchOK (_ : String) : Except ScrapeErr DetailPage := Except.ok demoDetail

/-- The record scrape_books builds for itemA against demoFetchOK. -/
def bookA : Book :=
  { title := "A", price := "£1.00", rating := "One", availability := 1,
    upc := "u", product_type := "pt", price_excl_tax := "£1.00",
    price_incl_tax := "£1.00", tax := "£0.00", num_reviews := "0",
    description := "d" }

/-! ## Helper lemmas -/

/-- If a character list has no digits, everything its digit-or-dot filter keeps
    is a dot. -/
theorem filter_dots (l : List Char) (h : ∀ c ∈ l, c.isDigit = false) :
    ∀ c ∈ l.filter isDigitOrDot, c = '.' := by
  intro c hc
  rw [List.mem_filter] at hc
  obtain ⟨hmem, hkeep⟩ := hc
  have hd := h c hmem
  unfold isDigitOrDot at hkeep
  rw [hd] at hkeep
  simpa using hkeep

/-- Python float() rejects a string made of dots only. -/
theorem parseDecimalParts_repDots (n : Nat) :
    parseDecimalParts (List.replicate n '.') = none := by
  match n with
  | 0 => rfl
  | 1 => rfl
  | (m + 2) =>
    show parseDecimalParts ('.' :: '.' :: List.replicate m '.') = none
    have hd : Char.isDigit '.' = false := by decide
    have hdrop : ('.' :: '.' :: List.replicate m '.').dropWhile Char.isDigit =
        '.' :: '.' :: List.replicate m '.' := by
      rw [List.dropWhile_cons, hd]
      simp
    have hall : allDigits ('.' :: List.replicate m '.') = false := by
      simp [allDigits, hd]
    unfold parseDecimalParts
    rw [hdrop]
    simp [hall]

/-- Membership through sorted insertion. -/
theorem mem_insertSorted (n m : Nat) (l : List Nat) :
    m ∈ insertSorted n l ↔ m = n ∨ m ∈ l := by
  induction l with
  | nil => simp [insertSorted]
  | cons a as ih =>
    unfold insertSorted
    split_ifs with h
    · simp [List.mem_cons]
    · simp [List.mem_cons, ih]
      tauto

/-- Sorting preserves membership. -/
theorem mem_sortNat (m : Nat) (l : List Nat) : m ∈ sortNat l ↔ m ∈ l := by
  induction l with
  | nil => simp [sortNat]
  | cons a as ih =>
    show m ∈ insertSorted a (sortNat as) ↔ m ∈ a :: as
    rw [mem_insertSorted]
    simp [ih]

/-! ## Claim C1: currency parsing -/

/-- Claim C1 counterexample: the claim states that a string with no digits,
    including the empty string, yields 0.0 and never an error; but the code
    calls float() on the stripped string, and float of the empty string raises
    ValueError (modelled as none), so parsing the empty string is an error,
    not 0.0. -/
theorem C1_counterexample : clean_currency (some "") = none := rfl

/-- Claim C1 (amended): the currency cleaning of clean_data strips every
    character that is not a digit or a dot and parses the remainder with
    Python float semantics.  A null cell yields 0.0, and parsing is exact and
    idempotent on clean or currency-prefixed input ("51.77" and "£51.77" give
    51.77, "£0.00" gives 0.0); but a non-null string whose stripped remainder
    is not a well-formed decimal - in particular any string with no digits,
    such as the empty string, and malformed remainders such as "1.2.3" -
    raises ValueError instead of yielding 0.0. -/
theorem C1_amended :
    clean_currency none = some 0 ∧
    clean_currency (some "51.77") = some (5177 / 100) ∧
    clean_currency (some "£51.77") = some (5177 / 100) ∧
    clean_currency (some "£0.00") = some 0 ∧
    clean_currency (some "1.2.3") = none ∧
    ∀ s : String, (∀ c ∈ s.data, c.isDigit = false) → clean_currency (some s) = none := by
  refine ⟨rfl, ?_, ?_, ?_, by decide, ?_⟩
  · have h : parseDecimalParts ("51.77".data.filter isDigitOrDot) = some (5177, 2) := by decide
    simp [clean_currency, h]
    norm_num
  · have h : parseDecimalParts ("£51.77".data.filter isDigitOrDot) = some (5177, 2) := by decide
    simp [clean_currency, h]
    norm_num
  · have h : parseDecimalParts ("£0.00".data.filter isDigitOrDot) = some (0, 2) := by decide
    simp [clean_currency, h]
  · intro s hs
    show (parseDecimalParts (s.data.filter isDigitOrDot)).map _ = none
    rw [List.eq_replicate_of_mem (filter_dots s.data hs)]
    rw [parseDecimalParts_repDots]
    rfl

/-- Claim C1 witness: the amended theorem applied to the digit-free string
    "£", whose cleaning raises rather than yielding 0.0. -/
theorem C1_amended_witness : clean_currency (some "£") = none :=
  C1_amended.2.2.2.2.2 "£" (by decide)

/-! ## Claim C2: detail-fetch failure aborts the crawl -/

/-- Claim C2 counterexample: a crawl of 3 listing items where exactly the
    second detail fetch fails does not yield 3 records with a warning count;
    the uncaught exception aborts the whole loop and the run returns the
    fetch error with no records at all. -/
theorem C2_counterexample :
    scrape_page demoFetch [itemA, itemB, itemC] = Except.error ScrapeErr.fetchErr := rfl

/-- Claim C2 (amended): a detail-fetch failure for one item aborts the crawl
    of all items: whenever any listing item of the run fails in scrape_item,
    the whole scrape returns an error instead of a record list; no
    listing-only record is kept and no warning count exists. -/
theorem C2_amended (fetch : String → Except ScrapeErr DetailPage) (items : List ListingItem)
    (it : ListingItem) (e : ScrapeErr) (hmem : it ∈ items)
    (hfail : scrape_item fetch it = Except.error e) :
    ∃ eRun : ScrapeErr, scrape_page fetch items = Except.error eRun := by
  revert hmem
  induction items with
  | nil => intro hmem; cases hmem
  | cons a rest ih =>
    intro hmem
    rcases List.mem_cons.mp hmem with hh | hh
    · subst hh
      refine ⟨e, ?_⟩
      unfold scrape_page
      rw [hfail]
    · cases hsa : scrape_item fetch a with
      | error e0 =>
        refine ⟨e0, ?_⟩
        unfold scrape_page
        rw [hsa]
      | ok b =>
        obtain ⟨e1, h1⟩ := ih hh
        refine ⟨e1, ?_⟩
        unfold scrape_page
        rw [hsa, h1]

/-- Claim C2 witness: the amended theorem applied to the 3-item fixture run
    whose second detail fetch fails; the run does not return a record list. -/
theorem C2_amended_witness : (scrape_page demoFetch [itemA, itemB, itemC]).isOk = false := by
  obtain ⟨e, he⟩ := C2_amended demoFetch [itemA, itemB, itemC] itemB ScrapeErr.fetchErr
    (by simp) rfl
  rw [he]
  rfl

/-! ## Claim C3: the aggregator on an empty collection -/

/-- Claim C3 counterexample: the claim states that the mean-based statistics
    of an empty collection are explicitly marked undefined and are not a
    silently propagated NaN; but analyze_data on the empty collection returns
    the pandas floating NaN value for the mean, max and min of the price
    column, with no distinct undefined marker. -/
theorem C3_counterexample :
    (analyze_data []).average_price = PyFloat.nan ∧
    (analyze_data []).max_price = PyFloat.nan ∧
    (analyze_data []).min_price = PyFloat.nan := ⟨rfl, rfl, rfl⟩

/-- Claim C3 (amended): analyze_data on the empty collection does not crash:
    the count-based statistics are zero (total availability 0) and the two
    grouped mappings are empty, while the mean-based statistics (average,
    max and min price) are the silently propagated pandas NaN value rather
    than an explicit undefined marker. -/
theorem C3_amended :
    analyze_data [] = ⟨PyFloat.nan, PyFloat.nan, PyFloat.nan, 0, [], []⟩ := rfl

/-! ## Claim C4: rating mapping -/

/-- Claim C4: clean_data maps the word-form rating label through the fixed
    table One to 1 through Five to 5, any unrecognized label (for example
    "Zero") maps to the default 3 without failing, and consequently every
    cleaned rating is an integer between 1 and 5. -/
theorem C4_rating_mapping :
    (∀ s : String, 1 ≤ clean_rating s ∧ clean_rating s ≤ 5) ∧
    clean_rating "One" = 1 ∧ clean_rating "Two" = 2 ∧ clean_rating "Three" = 3 ∧
    clean_rating "Four" = 4 ∧ clean_rating "Five" = 5 ∧ clean_rating "Zero" = 3 := by
  refine ⟨?_, by decide, by decide, by decide, by decide, by decide, by decide⟩
  intro s
  unfold clean_rating rating_map
  split_ifs <;> simp

/-- Claim C4 witness: the bounds applied to a concrete unrecognized label. -/
theorem C4_rating_mapping_witness : 1 ≤ clean_rating "Seven" ∧ clean_rating "Seven" ≤ 5 :=
  C4_rating_mapping.1 "Seven"

/-! ## Claim C5: availability parsing -/

/-- Claim C5 counterexample: the claim states that any phrase matching neither
    the form "In stock (N available)" nor a bare "In stock"/"Out of stock"
    yields the default 0; but the regex searches anywhere in the text, so the
    phrase "Backordered (7 available)", which matches neither claimed form,
    yields 7 rather than 0. -/
theorem C5_counterexample : parse_availability "Backordered (7 available)" = 7 := by decide

/-- Claim C5 (amended): availability is N whenever the text contains a
    parenthesised "(N available)" anywhere (so "In stock (22 available)"
    gives 22), otherwise 1 when the text contains the substring "In stock"
    ("In stock" gives 1), otherwise 0 ("Out of stock" and unrecognized
    phrases give 0). -/
theorem C5_amended :
    parse_availability "In stock (22 available)" = 22 ∧
    parse_availability "In stock" = 1 ∧
    parse_availability "Out of stock" = 0 ∧
    (∀ s : String, ∀ n : Nat, availSearch s.data = some n → parse_availability s = n) ∧
    (∀ s : String, availSearch s.data = none → containsInStock s = false →
      parse_availability s = 0) := by
  refine ⟨by decide, by decide, by decide, ?_, ?_⟩
  · intro s n h
    unfold parse_availability
    rw [h]
  · intro s h hin
    unfold parse_availability
    rw [h, hin]
    rfl

/-- Claim C5 witness: the amended theorem applied to a concrete phrase with
    neither a parenthesised count nor the In stock words. -/
theorem C5_amended_witness : parse_availability "Coming soon" = 0 :=
  C5_amended.2.2.2.2 "Coming soon" (by decide) (by decide)

/-! ## Claim C6: rating distribution keys -/

/-- Claim C6 counterexample: the claim states that the rating distribution
    contains all five keys 1 through 5 with zero counts for absent ratings;
    but for a collection with a single record of rating 5 the distribution of
    analyze_data is the single pair (5, 1): the key 1 is absent and the pair
    (1, 0) is not in the mapping. -/
theorem C6_counterexample :
    (analyze_data [⟨10, 5, 1⟩]).rating_distribution = [(5, 1)] ∧
    (1, 0) ∉ (analyze_data [⟨10, 5, 1⟩]).rating_distribution := by decide

/-- Claim C6 (amended): the rating distribution of analyze_data contains
    exactly the ratings that occur in the collection, each paired with its
    occurrence count; a rating value appears as a key if and only if some
    record has that rating, so missing ratings are absent rather than
    present with a zero count. -/
theorem C6_amended (df : List CleanBook) (v : Nat) :
    (v, (df.map CleanBook.rating).count v) ∈ (analyze_data df).rating_distribution ↔
      v ∈ df.map CleanBook.rating := by
  show (v, _) ∈ value_counts_sorted (df.map CleanBook.rating) ↔ _
  unfold value_counts_sorted
  constructor
  · intro h
    obtain ⟨a, ha, heq⟩ := List.mem_map.mp h
    have hav : a = v := congrArg Prod.fst heq
    subst hav
    exact List.mem_dedup.mp ((mem_sortNat a _).mp ha)
  · intro h
    exact List.mem_map.mpr ⟨v, (mem_sortNat v _).mpr (List.mem_dedup.mpr h), rfl⟩

/-- Claim C6 witness: the amended theorem applied to the singleton rating-5
    collection. -/
theorem C6_amended_witness :
    (5, ([(⟨10, 5, 1⟩ : CleanBook)].map CleanBook.rating).count 5) ∈
      (analyze_data [⟨10, 5, 1⟩]).rating_distribution :=
  (C6_amended [⟨10, 5, 1⟩] 5).mpr (by decide)

/-! ## Claim C7: missing meta-description tag -/

/-- Claim C7 counterexample: the claim states that a missing meta-description
    tag still lets the detail fetch succeed with an absent description; but
    the code subscripts the find result with no None check, so the item
    extraction raises and the item fails with a parse error. -/
theorem C7_counterexample :
    scrape_item (fun _ => Except.ok noMetaPage) itemA = Except.error ScrapeErr.parseErr := rfl

/-- Claim C7 (amended): for every detail page whose meta-description tag is
    missing, the extraction of that item fails with a parse error (the raised
    TypeError of subscripting None), regardless of the other page fields and
    of the listing item; the description is never defaulted at scrape time. -/
theorem C7_amended (it : ListingItem) (page : DetailPage) (h : page.description = none) :
    scrape_item (fun _ => Except.ok page) it = Except.error ScrapeErr.parseErr := by
  cases page with
  | mk d u pt p1 p2 t n =>
    obtain rfl : d = none := h
    rfl

/-- Claim C7 witness: the amended theorem applied to a page with every
    lookup missing. -/
theorem C7_amended_witness :
    scrape_item (fun _ => Except.ok pageAllNone) itemB = Except.error ScrapeErr.parseErr :=
  C7_amended itemB pageAllNone rfl

/-! ## Claim C8: num_reviews coercion -/

/-- Claim C8 counterexample: the claim states that any num_reviews value that
    cannot be parsed as an integer yields the default 0; but astype(int) on
    the string "abc" raises ValueError - only the null cell is defaulted. -/
theorem C8_counterexample :
    clean_num_reviews (Cell.str "abc") = Except.error ValueErr.valueErr := rfl

/-- Claim C8 (amended): clean_data coerces num_reviews to an integer with a
    default only for nulls: a null cell becomes 0 through fillna, a string
    that int() parses becomes its value, and a non-null string that int()
    cannot parse raises ValueError rather than defaulting to 0. -/
theorem C8_amended :
    clean_num_reviews Cell.null = Except.ok 0 ∧
    (∀ s : String, ∀ n : Int, pyInt s = some n → clean_num_reviews (Cell.str s) = Except.ok n) ∧
    (∀ s : String, pyInt s = none →
      clean_num_reviews (Cell.str s) = Except.error ValueErr.valueErr) := by
  refine ⟨rfl, ?_, ?_⟩
  · intro s n h
    show astype_int (Cell.str s) = Except.ok n
    simp [astype_int, h]
  · intro s h
    show astype_int (Cell.str s) = Except.error ValueErr.valueErr
    simp [astype_int, h]

/-- Claim C8 witness: the amended theorem applied to the parsable string "4"
    and to the unparsable empty string. -/
theorem C8_amended_witness :
    clean_num_reviews (Cell.str "4") = Except.ok 4 ∧
    clean_num_reviews (Cell.str "") = Except.error ValueErr.valueErr :=
  ⟨C8_amended.2.1 "4" 4 (by decide), C8_amended.2.2 "" (by decide)⟩

/-! ## Claim C9: request spacing and retries -/

/-- Per-item trace: one request per item. -/
theorem itemEvs_countP_fetch (its : List ListingItem) :
    (itemEvs its).countP isFetch = its.length := by
  induction its with
  | nil => rfl
  | cons it rest ih =>
    show (Ev.fetchDetail it.href :: Ev.sleep :: itemEvs rest).countP isFetch = rest.length + 1
    rw [List.countP_cons, List.countP_cons, ih]
    simp [isFetch]

/-- Per-item trace: one sleep per item. -/
theorem itemEvs_count_sleep (its : List ListingItem) :
    (itemEvs its).count Ev.sleep = its.length := by
  induction its with
  | nil => rfl
  | cons it rest ih =>
    show (Ev.fetchDetail it.href :: Ev.sleep :: itemEvs rest).count Ev.sleep = rest.length + 1
    rw [List.count_cons, List.count_cons, ih]
    simp

/-- A leading sleep never breaks spacing. -/
theorem wellSpaced_sleep_cons (xs : List Ev) : wellSpaced (Ev.sleep :: xs) = wellSpaced xs := by
  cases xs with
  | nil => rfl
  | cons e r => simp [wellSpaced, isFetch]

/-- The detail-fetch part of a page trace is well spaced on its own. -/
theorem wellSpaced_itemEvs (its : List ListingItem) : wellSpaced (itemEvs its) = true := by
  induction its with
  | nil => rfl
  | cons it rest ih =>
    show wellSpaced (Ev.fetchDetail it.href :: Ev.sleep :: itemEvs rest) = true
    simp [wellSpaced, isFetch, wellSpaced_sleep_cons, ih]

/-- Claim C9 counterexample: the claim states that the minimum delay elapses
    between every pair of consecutive requests of a run; but already for a
    one-page, one-item run the trace issues the listing request and the first
    detail request back to back with no sleep between them, so the trace is
    not well spaced (and the code contains no retry logic at all). -/
theorem C9_counterexample : wellSpaced (scrapeTrace [(1, [itemA])]) = false := by decide

/-- Claim C9 (amended): in the trace of one listing page, exactly one request
    is issued for the page plus one per item (each URL requested once: no
    retries, no backoff), exactly one sleep follows each item, and the trace
    after the listing request is well spaced - the only unspaced pair is the
    listing request followed immediately by the first detail request, as
    witnessed by any page with at least one item being not well spaced. -/
theorem C9_amended (p : Nat) (its : List ListingItem) (it : ListingItem) :
    (pageTrace p its).countP isFetch = 1 + its.length ∧
    (pageTrace p its).count Ev.sleep = its.length ∧
    wellSpaced ((pageTrace p its).drop 1) = true ∧
    wellSpaced (pageTrace p (it :: its)) = false := by
  refine ⟨?_, ?_, ?_, ?_⟩
  · show (Ev.fetchListing p :: itemEvs its).countP isFetch = 1 + its.length
    rw [List.countP_cons, itemEvs_countP_fetch]
    simp [isFetch]
    omega
  · show (Ev.fetchListing p :: itemEvs its).count Ev.sleep = its.length
    rw [List.count_cons, itemEvs_count_sleep]
    simp
  · show wellSpaced (itemEvs its) = true
    exact wellSpaced_itemEvs its
  · show wellSpaced (Ev.fetchListing p :: Ev.fetchDetail it.href :: Ev.sleep :: itemEvs its) = false
    simp [wellSpaced, isFetch]

/-- Claim C9 witness: the amended theorem applied to a concrete one-item
    page trace. -/
theorem C9_amended_witness : wellSpaced (pageTrace 1 (itemA :: [])) = false :=
  (C9_amended 1 [] itemA).2.2.2

/-! ## Claim C10: scraped records survive phase-1 cleaning unchanged -/

/-- The default fills never change a row built from a scraped record. -/
theorem fill_defaults_toRow (b : Book) : fill_defaults b.toRow = b.toRow := rfl

/-- Phase-1 cleaning is the identity on rows built from scraped records. -/
theorem clean_phase1_toRow (books : List Book) :
    clean_phase1 (books.map Book.toRow) = books.map Book.toRow := by
  induction books with
  | nil => rfl
  | cons b bs ih =>
    show clean_phase1 (b.toRow :: bs.map Book.toRow) = b.toRow :: bs.map Book.toRow
    unfold clean_phase1 dropna_critical at ih ⊢
    rw [List.filter_cons_of_pos (by rfl), List.map_cons, fill_defaults_toRow, ih]

/-- Claim C10: every record of a crawl that completes without an exception
    has all eleven fields non-null, with availability a non-negative integer
    at record-creation time; consequently the required-field drop and the
    description / num_reviews default fills of clean_data leave every record
    unchanged. -/
theorem C10_all_fields (fetch : String → Except ScrapeErr DetailPage)
    (items : List ListingItem) (books : List Book)
    (_h : scrape_page fetch items = Except.ok books) :
    (∀ b ∈ books, rowNonNull b.toRow = true ∧ 0 ≤ (b.availability : Int)) ∧
    clean_phase1 (books.map Book.toRow) = books.map Book.toRow :=
  ⟨fun b _ => ⟨rfl, by omega⟩, clean_phase1_toRow books⟩

/-- Claim C10 witness: the theorem applied to a concrete successful one-item
    crawl. -/
theorem C10_witness :
    rowNonNull bookA.toRow = true ∧
    clean_phase1 ([bookA].map Book.toRow) = [bookA].map Book.toRow := by
  have h := C10_all_fields demoFetchOK [itemA] [bookA] rfl
  exact ⟨(h.1 bookA (by simp)).1, h.2⟩
